import Mathlib

/-! Role store and view action menu of the Graylog web interface

A shallow embedding of

* `stores/roles/AuthzRolesStore.js`: the two pagination decoders
  `_responseToPaginatedList` / `_responseToPaginatedUserList` and the seven
  operations of the Reflux store;
* `views/components/ViewActionsMenu.jsx`: the derived predicates
  `_isAllowedToEdit` / `_hasUndeclaredParameters` and the `disabled`
  properties of the rendered buttons and menu entries.

JavaScript exceptions are values of `Except JSError`, a promise is a record
of its identity and its settled outcome, and the effects of the store (HTTP
requests issued, promises handed to actions) are logged in an explicit
`World` that every operation threads through.
-/

namespace AuthzRoles

/-! ## Data model -/

/-- Exceptions a JavaScript evaluation of the embedded code can throw. -/
inductive JSError where
  /-- Reading the property `map` of `undefined` or `null`. -/
  | typeError
  deriving DecidableEq, Repr

/-- What destructuring reads for the item property (`roles` / `users`) of a
response object: the property may be omitted (`undefined`), be `null`, or
hold an array of item JSON objects. -/
inductive ItemsField (J : Type) where
  | undefined
  | null
  | array (items : List J)
  deriving DecidableEq, Repr

/-- Modelled from the spec: `PaginatedResponseType` of `stores/PaginationTypes`
(not part of the sources), the wire envelope
`{count:int, total:int, page:int, per_page:int, query:string}`. -/
structure PaginatedResponseType where
  count : Int
  total : Int
  page : Int
  per_page : Int
  query : String
  deriving DecidableEq, Repr

/-- Modelled from the spec: `PaginationType` of `stores/PaginationTypes`
(not part of the sources), the metadata `{count, total, page, perPage, query}`
of a page. -/
structure PaginationType where
  count : Int
  total : Int
  page : Int
  perPage : Int
  query : String
  deriving DecidableEq, Repr

/-- The type `PaginatedResponse = PaginatedResponseType & { roles }`. -/
structure PaginatedResponse (J : Type) extends PaginatedResponseType where
  roles : ItemsField J

/-- The type `PaginatedUserResponse = PaginatedResponseType & { users }`. -/
structure PaginatedUserResponse (J : Type) extends PaginatedResponseType where
  users : ItemsField J

/-- The types `PaginatedListType` / `PaginatedUserListType`: an `Immutable.List` of
domain objects (an ordered sequence) and the pagination metadata. -/
structure PaginatedListType (T : Type) where
  list : List T
  pagination : PaginationType
  deriving DecidableEq, Repr

/-! ## Pagination decoders -/

/-- The default initialiser `roles = []` of the destructuring pattern: it
replaces the property only when it is `undefined`. -/
def defaultEmpty {J : Type} : ItemsField J → ItemsField J
  | .undefined => .array []
  | v => v

/-- The expression `xs.map((x) => fromJSON(x))` wrapped in `Immutable.List`:
defined on arrays, a `TypeError` on `undefined` and `null`. -/
def mapItems {J T : Type} (fromJSON : J → T) : ItemsField J → Except JSError (List T)
  | .array items => .ok (items.map fromJSON)
  | .undefined => .error .typeError
  | .null => .error .typeError

/-- The decoder `_responseToPaginatedList`; `fromJSON` stands for the factory
`Role.fromJSON`. -/
def _responseToPaginatedList {J R : Type} (fromJSON : J → R)
    (response : PaginatedResponse J) : Except JSError (PaginatedListType R) :=
  let roles := defaultEmpty response.roles
  match mapItems fromJSON roles with
  | .error e => .error e
  | .ok list =>
    .ok { list := list
          pagination := { count := response.count
                          total := response.total
                          page := response.page
                          perPage := response.per_page
                          query := response.query } }

/-- The decoder `_responseToPaginatedUserList`; `fromJSON` stands for the
factory `UserOverview.fromJSON`. -/
def _responseToPaginatedUserList {J U : Type} (fromJSON : J → U)
    (response : PaginatedUserResponse J) : Except JSError (PaginatedListType U) :=
  match mapItems fromJSON response.users with
  | .error e => .error e
  | .ok list =>
    .ok { list := list
          pagination := { count := response.count
                          total := response.total
                          page := response.page
                          perPage := response.per_page
                          query := response.query } }

/-- The invariant the spec states for a page: `list.length <= perPage` and
`count == list.length`. -/
def PageInvariant {T : Type} (p : PaginatedListType T) : Prop :=
  (p.list.length : Int) ≤ p.pagination.perPage ∧ p.pagination.count = p.list.length

instance {T : Type} (p : PaginatedListType T) : Decidable (PageInvariant p) := by
  unfold PageInvariant; infer_instance

/-! ## The store: requests, promises and the action bridge -/

/-- The type `Immutable.Set`: a collection without repetition together with the order
in which it is iterated; `toArray` lists the elements in that order. -/
structure ImmutableSet (α : Type) where
  toArray : List α
  nodup : toArray.Nodup

/-- Number of elements, `set.size`. -/
def ImmutableSet.size {α : Type} (s : ImmutableSet α) : Nat := s.toArray.length

/-- HTTP methods the store uses. -/
inductive Method where
  | GET
  | PUT
  | DELETE
  deriving DecidableEq, Repr

/-- One call of `fetch(method, url, body)`. -/
structure Request where
  method : Method
  url : String
  body : Option (List String)
  deriving DecidableEq, Repr

/-- Reasons a promise is rejected: the transport failed, the server answered
outside 2xx, or a `then` callback threw. -/
inductive Failure where
  | network
  | http (status : Nat)
  | thrown (e : JSError)
  deriving DecidableEq, Repr

/-- Settled state of a promise. -/
inductive Outcome (V : Type) where
  | fulfilled (value : V)
  | rejected (reason : Failure)
  deriving DecidableEq, Repr

/-- Values the store's promises resolve to: the response body as `fetch`
delivers it, or a domain object built from it. -/
inductive Value (J R U : Type) where
  | json (body : J)
  | role (r : R)
  | rolePage (p : PaginatedListType R)
  | userPage (p : PaginatedListType U)
  deriving DecidableEq, Repr

/-- A promise object: its identity and the outcome it settles with. -/
structure Promise (J R U : Type) where
  id : Nat
  outcome : Outcome (Value J R U)
  deriving DecidableEq, Repr

/-- The actions of `AuthzRolesActions` the store listens to. -/
inductive ActionName where
  | load
  | delete
  | addMembers
  | removeMember
  | loadUsersForRole
  | loadRolesForUser
  | loadRolesPaginated
  deriving DecidableEq, Repr

/-- The route table `ApiRoutes.AuthzRolesController` (an external
collaborator): each entry yields the `url` of the route. -/
structure AuthzRolesController where
  load : String → String
  delete : String → String
  addMembers : String → String
  removeMember : String → String → String
  loadUsersForRole : String → String
  loadRolesForUser : String → String
  list : String

/-- The imports of the store that are not part of the sources, taken as
parameters: the domain-object factories, the transport behind `fetch`
(`respond earlier request` is how the request settles, given the requests
issued before it), the reading of a response body as the envelope a decoder
destructures, and the URL helpers. -/
structure Collaborators (J R U : Type) where
  roleFromJSON : J → R
  userFromJSON : J → U
  respond : List Request → Request → Outcome J
  rolesEnvelope : J → PaginatedResponse J
  usersEnvelope : J → PaginatedUserResponse J
  qualifyUrl : String → String
  encodeURIComponent : String → String
  PaginationURL : String → Int → Int → String → String
  routes : AuthzRolesController

/-- The observable effects so far: the requests issued through `fetch`, the
promises handed to `AuthzRolesActions.<name>.promise`, and the identity the
next promise object gets. -/
structure World (J R U : Type) where
  requests : List Request
  registered : List (ActionName × Promise J R U)
  nextPromise : Nat

/-- The call `fetch(method, url, body)`: issues the request and returns a new
promise settling with the transport's answer. -/
def fetch {J R U : Type} (env : Collaborators J R U) (method : Method) (url : String)
    (body : Option (List String)) (w : World J R U) : World J R U × Promise J R U :=
  let request : Request := { method := method, url := url, body := body }
  let outcome : Outcome (Value J R U) :=
    match env.respond w.requests request with
    | .fulfilled j => .fulfilled (.json j)
    | .rejected e => .rejected e
  ({ w with requests := w.requests ++ [request], nextPromise := w.nextPromise + 1 },
   { id := w.nextPromise, outcome := outcome })

/-- The call `promise.then(onFulfilled)` on a promise of `fetch`: a new promise
that applies the callback to the response body, is rejected with what the
callback throws, and passes a rejection on. The store chains only on promises
of `fetch`, which never fulfil with anything but a response body
(`fetch_settles_with_body`), so the remaining case is never reached. -/
def Promise.then_ {J R U : Type} (p : Promise J R U)
    (onFulfilled : J → Except JSError (Value J R U)) (w : World J R U) :
    World J R U × Promise J R U :=
  let outcome : Outcome (Value J R U) :=
    match p.outcome with
    | .fulfilled (.json j) =>
      match onFulfilled j with
      | .ok v => .fulfilled v
      | .error e => .rejected (.thrown e)
    | .fulfilled v => .fulfilled v
    | .rejected e => .rejected e
  ({ w with nextPromise := w.nextPromise + 1 }, { id := w.nextPromise, outcome := outcome })

/-- The call `AuthzRolesActions.<action>.promise(promise)`. -/
def registerPromise {J R U : Type} (action : ActionName) (p : Promise J R U)
    (w : World J R U) : World J R U :=
  { w with registered := w.registered ++ [(action, p)] }

namespace AuthzRolesStore

variable {J R U : Type}

/-- Store operation `load(roleId)`. -/
def load (env : Collaborators J R U) (roleId : String) (w : World J R U) :
    World J R U × Promise J R U :=
  let url := env.qualifyUrl (env.routes.load (env.encodeURIComponent roleId))
  let (w1, fetched) := fetch env .GET url none w
  let (w2, promise) := fetched.then_ (fun j => .ok (.role (env.roleFromJSON j))) w1
  let w3 := registerPromise .load promise w2
  (w3, promise)

/-- Store operation `delete(roleId)`. -/
def delete (env : Collaborators J R U) (roleId : String) (w : World J R U) :
    World J R U × Promise J R U :=
  let url := env.qualifyUrl (env.routes.delete (env.encodeURIComponent roleId))
  let (w1, promise) := fetch env .DELETE url none w
  let w2 := registerPromise .delete promise w1
  (w2, promise)

/-- Store operation `addMembers(roleId, usernames)`. -/
def addMembers (env : Collaborators J R U) (roleId : String)
    (usernames : ImmutableSet String) (w : World J R U) : World J R U × Promise J R U :=
  let url := env.routes.addMembers roleId
  let (w1, promise) := fetch env .PUT (env.qualifyUrl url) (some usernames.toArray) w
  let w2 := registerPromise .addMembers promise w1
  (w2, promise)

/-- Store operation `removeMember(roleId, username)`. -/
def removeMember (env : Collaborators J R U) (roleId username : String) (w : World J R U) :
    World J R U × Promise J R U :=
  let url := env.routes.removeMember roleId username
  let (w1, promise) := fetch env .DELETE (env.qualifyUrl url) none w
  let w2 := registerPromise .removeMember promise w1
  (w2, promise)

/-- Store operation `loadUsersForRole(roleId, roleName, page, perPage, query)`. -/
def loadUsersForRole (env : Collaborators J R U) (roleId _roleName : String)
    (page perPage : Int) (query : String) (w : World J R U) :
    World J R U × Promise J R U :=
  let url := env.PaginationURL (env.routes.loadUsersForRole roleId) page perPage query
  let (w1, fetched) := fetch env .GET (env.qualifyUrl url) none w
  let (w2, promise) := fetched.then_
    (fun j => (_responseToPaginatedUserList env.userFromJSON (env.usersEnvelope j)).map
      Value.userPage) w1
  let w3 := registerPromise .loadUsersForRole promise w2
  (w3, promise)

/-- Store operation `loadRolesForUser(username, page, perPage, query)`. -/
def loadRolesForUser (env : Collaborators J R U) (username : String)
    (page perPage : Int) (query : String) (w : World J R U) :
    World J R U × Promise J R U :=
  let url := env.PaginationURL (env.routes.loadRolesForUser username) page perPage query
  let (w1, fetched) := fetch env .GET (env.qualifyUrl url) none w
  let (w2, promise) := fetched.then_
    (fun j => (_responseToPaginatedList env.roleFromJSON (env.rolesEnvelope j)).map
      Value.rolePage) w1
  let w3 := registerPromise .loadRolesForUser promise w2
  (w3, promise)

/-- Store operation `loadRolesPaginated(page, perPage, query)`. -/
def loadRolesPaginated (env : Collaborators J R U) (page perPage : Int) (query : String)
    (w : World J R U) : World J R U × Promise J R U :=
  let url := env.PaginationURL env.routes.list page perPage query
  let (w1, fetched) := fetch env .GET (env.qualifyUrl url) none w
  let (w2, promise) := fetched.then_
    (fun j => (_responseToPaginatedList env.roleFromJSON (env.rolesEnvelope j)).map
      Value.rolePage) w1
  let w3 := registerPromise .loadRolesPaginated promise w2
  (w3, promise)

end AuthzRolesStore

/-- An invocation of one of the seven store operations with its arguments. -/
inductive Call where
  | load (roleId : String)
  | delete (roleId : String)
  | addMembers (roleId : String) (usernames : ImmutableSet String)
  | removeMember (roleId username : String)
  | loadUsersForRole (roleId roleName : String) (page perPage : Int) (query : String)
  | loadRolesForUser (username : String) (page perPage : Int) (query : String)
  | loadRolesPaginated (page perPage : Int) (query : String)

/-- The action that carries the name of the invoked operation. -/
def Call.action : Call → ActionName
  | .load _ => .load
  | .delete _ => .delete
  | .addMembers _ _ => .addMembers
  | .removeMember _ _ => .removeMember
  | .loadUsersForRole _ _ _ _ _ => .loadUsersForRole
  | .loadRolesForUser _ _ _ _ => .loadRolesForUser
  | .loadRolesPaginated _ _ _ => .loadRolesPaginated

/-- Running an invocation on the store. -/
def Call.run {J R U : Type} (env : Collaborators J R U) :
    Call → World J R U → World J R U × Promise J R U
  | .load roleId => AuthzRolesStore.load env roleId
  | .delete roleId => AuthzRolesStore.delete env roleId
  | .addMembers roleId usernames => AuthzRolesStore.addMembers env roleId usernames
  | .removeMember roleId username => AuthzRolesStore.removeMember env roleId username
  | .loadUsersForRole roleId roleName page perPage query =>
    AuthzRolesStore.loadUsersForRole env roleId roleName page perPage query
  | .loadRolesForUser username page perPage query =>
    AuthzRolesStore.loadRolesForUser env username page perPage query
  | .loadRolesPaginated page perPage query =>
    AuthzRolesStore.loadRolesPaginated env page perPage query

end AuthzRoles

namespace ViewActions

open AuthzRoles (ImmutableSet)

/-! ## View action menu -/

/-- Modelled from the spec: the constants `View.Type` of `views/logic/views/View`
(not part of the sources), `Search | Dashboard`. -/
inductive ViewType where
  | Search
  | Dashboard
  deriving DecidableEq, Repr

/-- The properties of a `View` the menu reads. -/
structure View where
  id : String
  title : String
  type : ViewType
  deriving DecidableEq, Repr

/-- The property of `UserJSON` the menu reads. -/
structure UserJSON where
  permissions : List String
  deriving DecidableEq, Repr

/-- The property of `SearchMetadata` the menu reads. -/
structure SearchMetadata where
  undeclared : ImmutableSet String

/-- The imports of the menu that are not part of the sources, taken as
parameters: `isPermitted` of `util/PermissionsMixin` (its first argument is
`undefined`, here `none`, when there is no user), `Permissions.View.Edit` and
`AppConfig.gl2DevMode()`. -/
structure Collaborators where
  isPermitted : Option (List String) → List String → Bool
  viewEdit : String → String
  gl2DevMode : Bool

/-- The expression `currentUser?.permissions`. -/
def permissionsOf (currentUser : Option UserJSON) : Option (List String) :=
  currentUser.map UserJSON.permissions

/-- The template literal for the legacy permission of a dashboard. -/
def legacyDashboardEdit (viewId : String) : String :=
  "dashboards:edit:" ++ viewId

/-- The predicate `_isAllowedToEdit`. -/
def _isAllowedToEdit (env : Collaborators) (view : View) (currentUser : Option UserJSON) : Bool :=
  env.isPermitted (permissionsOf currentUser) [env.viewEdit view.id]
    || (decide (view.type = ViewType.Dashboard)
        && env.isPermitted (permissionsOf currentUser) [legacyDashboardEdit view.id])

/-- The predicate `_hasUndeclaredParameters`. -/
def _hasUndeclaredParameters (searchMetadata : SearchMetadata) : Bool :=
  decide (searchMetadata.undeclared.size > 0)

/-- What the component renders, as far as the commands are concerned: the
`disabled` property of each button and menu entry (the one of Share as a
function of the `disabled` argument `HasOwnership` passes to its child) and
whether the Debug entry is part of the menu. -/
structure Menu where
  saveDisabled : Bool
  saveAsDisabled : Bool
  editMetadataDisabled : Bool
  shareDisabled : Bool → Bool
  exportDisabled : Bool
  debugEntry : Bool

/-- The component `ViewActionsMenu`, with the user of `CurrentUserContext` as
an argument. -/
def ViewActionsMenu (env : Collaborators) (view : View) (isNewView : Bool)
    (metadata : SearchMetadata) (currentUser : Option UserJSON) : Menu :=
  let hasUndeclaredParameters := _hasUndeclaredParameters metadata
  let allowedToEdit := _isAllowedToEdit env view currentUser
  { saveDisabled := isNewView || hasUndeclaredParameters || !allowedToEdit
    saveAsDisabled := hasUndeclaredParameters
    editMetadataDisabled := isNewView || !allowedToEdit
    shareDisabled := fun disabled => isNewView || !allowedToEdit || disabled
    exportDisabled := false
    debugEntry := env.gl2DevMode }

end ViewActions

/-! ## Concrete inputs -/

namespace AuthzRoles

/-- A role response announcing `per_page = 1` and `count = 0` while carrying
two roles. -/
def oversizedResponse : PaginatedResponse String :=
  { count := 0, total := 2, page := 1, per_page := 1, query := "",
    roles := .array ["reader", "admin"] }

/-- A role response for page 2 of the query `admin` with ten roles a page. -/
def adminRolesResponse : PaginatedResponse String :=
  { count := 2, total := 12, page := 2, per_page := 10, query := "admin",
    roles := .array ["admin-a", "admin-b"] }

/-- A user response with two users. -/
def usersResponse : PaginatedUserResponse String :=
  { count := 2, total := 2, page := 1, per_page := 10, query := "",
    users := .array ["alice", "bob"] }

/-- A role response without the `roles` property. -/
def rolesOmittedResponse : PaginatedResponse String :=
  { count := 0, total := 0, page := 1, per_page := 10, query := "none", roles := .undefined }

/-- A user response without the `users` property. -/
def usersOmittedResponse : PaginatedUserResponse String :=
  { count := 0, total := 0, page := 1, per_page := 10, query := "none", users := .undefined }

/-- A stand-in for a factory: it tags the JSON it is given. -/
def tagged (tag : String) (json : String) : String := tag ++ "(" ++ json ++ ")"

/-- A role response for page 2 of the query `admin` that announces ten roles
a page and carries eleven. -/
def elevenRolesResponse : PaginatedResponse String :=
  { count := 11, total := 30, page := 2, per_page := 10, query := "admin",
    roles := .array ["a01", "a02", "a03", "a04", "a05", "a06", "a07", "a08", "a09", "a10",
      "a11"] }

/-- A route table following the path patterns of the REST interface. -/
def sampleRoutes : AuthzRolesController :=
  { load := fun roleId => "/roles/" ++ roleId
    delete := fun roleId => "/roles/" ++ roleId
    addMembers := fun roleId => "/roles/" ++ roleId ++ "/members"
    removeMember := fun roleId username => "/roles/" ++ roleId ++ "/members/" ++ username
    loadUsersForRole := fun roleId => "/roles/" ++ roleId ++ "/users"
    loadRolesForUser := fun username => "/users/" ++ username ++ "/roles"
    list := "/roles" }

/-- Collaborators for concrete runs: every request settles with `reply`, a
response body reads as `elevenRolesResponse` / `usersResponse`, and the URL
helpers build plain strings. -/
def sampleCollaborators (reply : Outcome String) : Collaborators String String String :=
  { roleFromJSON := tagged "Role"
    userFromJSON := tagged "User"
    respond := fun _ _ => reply
    rolesEnvelope := fun _ => elevenRolesResponse
    usersEnvelope := fun _ => usersResponse
    qualifyUrl := fun url => "http://graylog/api" ++ url
    encodeURIComponent := fun component => component
    PaginationURL := fun url _ _ query => url ++ "?query=" ++ query
    routes := sampleRoutes }

/-- Collaborators for concrete runs whose responses respect their own
`per_page` and `count`: every request is fulfilled with `body`, which reads as
`adminRolesResponse` / `usersResponse`. -/
def conformingCollaborators (body : String) : Collaborators String String String :=
  { roleFromJSON := tagged "Role"
    userFromJSON := tagged "User"
    respond := fun _ _ => .fulfilled body
    rolesEnvelope := fun _ => adminRolesResponse
    usersEnvelope := fun _ => usersResponse
    qualifyUrl := fun url => "http://graylog/api" ++ url
    encodeURIComponent := fun component => component
    PaginationURL := fun url _ _ query => url ++ "?query=" ++ query
    routes := sampleRoutes }

/-- The state before any operation ran. -/
def emptyWorld : World String String String :=
  { requests := [], registered := [], nextPromise := 0 }

/-- The set `{"alice", "bob"}`, iterated in this order. -/
def aliceAndBob : ImmutableSet String :=
  { toArray := ["alice", "bob"], nodup := by decide }

end AuthzRoles

namespace ViewActions

/-- Collaborators for concrete runs: a permission check that asks for every
required permission to be listed (and fails without a user), and the
view-specific edit permission `view:edit:<id>`. -/
def sampleCollaborators : Collaborators :=
  { isPermitted := fun permissions required =>
      match permissions with
      | none => false
      | some held => required.all fun permission => held.contains permission
    viewEdit := fun viewId => "view:edit:" ++ viewId
    gl2DevMode := false }

/-- A dashboard. -/
def sampleDashboard : View := { id := "d1", title := "Traffic", type := .Dashboard }

/-- A user holding only the legacy edit permission of `sampleDashboard`. -/
def legacyEditor : UserJSON := { permissions := ["dashboards:edit:d1"] }

/-- Metadata without undeclared parameters. -/
def allDeclared : SearchMetadata := { undeclared := { toArray := [], nodup := by decide } }

/-- Metadata with one undeclared parameter. -/
def oneUndeclared : SearchMetadata :=
  { undeclared := { toArray := ["source"], nodup := by decide } }

end ViewActions

/-! ## Properties of the pagination decoders -/

namespace AuthzRoles

theorem responseToPaginatedList_of_array {J R : Type} (fromJSON : J → R)
    (response : PaginatedResponse J) (roles : List J)
    (h : defaultEmpty response.roles = .array roles) :
    _responseToPaginatedList fromJSON response =
      .ok { list := roles.map fromJSON
            pagination := { count := response.count, total := response.total,
                            page := response.page, perPage := response.per_page,
                            query := response.query } } := by
  simp [_responseToPaginatedList, h, mapItems]

theorem responseToPaginatedUserList_of_array {J U : Type} (fromJSON : J → U)
    (response : PaginatedUserResponse J) (users : List J)
    (h : response.users = .array users) :
    _responseToPaginatedUserList fromJSON response =
      .ok { list := users.map fromJSON
            pagination := { count := response.count, total := response.total,
                            page := response.page, perPage := response.per_page,
                            query := response.query } } := by
  simp [_responseToPaginatedUserList, h, mapItems]

/-- C1: when the item array is present, both decoders return exactly the
page whose list is the items mapped through the factory, in order and of the
same length, and whose pagination copies `count`, `total`, `page` and `query`
and holds `per_page` as `perPage`. -/
theorem decoders_map_items_and_copy_pagination {J K R U : Type}
    (roleFromJSON : J → R) (userFromJSON : K → U)
    (roleResponse : PaginatedResponse J) (userResponse : PaginatedUserResponse K)
    (roles : List J) (users : List K)
    (hroles : roleResponse.roles = .array roles)
    (husers : userResponse.users = .array users) :
    (∃ p, _responseToPaginatedList roleFromJSON roleResponse = .ok p
        ∧ p.list = roles.map roleFromJSON
        ∧ p.list.length = roles.length
        ∧ (∀ i (hi : i < roles.length), p.list[i]? = some (roleFromJSON roles[i]))
        ∧ p.pagination = { count := roleResponse.count, total := roleResponse.total,
                           page := roleResponse.page, perPage := roleResponse.per_page,
                           query := roleResponse.query })
    ∧ (∃ q, _responseToPaginatedUserList userFromJSON userResponse = .ok q
        ∧ q.list = users.map userFromJSON
        ∧ q.list.length = users.length
        ∧ (∀ i (hi : i < users.length), q.list[i]? = some (userFromJSON users[i]))
        ∧ q.pagination = { count := userResponse.count, total := userResponse.total,
                           page := userResponse.page, perPage := userResponse.per_page,
                           query := userResponse.query }) := by
  refine ⟨⟨_, responseToPaginatedList_of_array roleFromJSON roleResponse roles
      (by simp [hroles, defaultEmpty]), rfl, by simp, ?_, rfl⟩,
    ⟨_, responseToPaginatedUserList_of_array userFromJSON userResponse users husers,
      rfl, by simp, ?_, rfl⟩⟩
  · intro i hi
    simp [List.getElem?_map, List.getElem?_eq_getElem hi]
  · intro i hi
    simp [List.getElem?_map, List.getElem?_eq_getElem hi]

/-- C1 at the responses `adminRolesResponse` and `usersResponse`. -/
theorem decoders_map_items_and_copy_pagination_witness :
    (∃ p, _responseToPaginatedList (tagged "Role") adminRolesResponse = .ok p
        ∧ p.list = ["admin-a", "admin-b"].map (tagged "Role")
        ∧ p.list.length = ["admin-a", "admin-b"].length
        ∧ (∀ i (hi : i < ["admin-a", "admin-b"].length),
            p.list[i]? = some (tagged "Role" ["admin-a", "admin-b"][i]))
        ∧ p.pagination = { count := 2, total := 12, page := 2, perPage := 10,
                           query := "admin" })
    ∧ (∃ q, _responseToPaginatedUserList (tagged "User") usersResponse = .ok q
        ∧ q.list = ["alice", "bob"].map (tagged "User")
        ∧ q.list.length = ["alice", "bob"].length
        ∧ (∀ i (hi : i < ["alice", "bob"].length),
            q.list[i]? = some (tagged "User" ["alice", "bob"][i]))
        ∧ q.pagination = { count := 2, total := 2, page := 1, perPage := 10,
                           query := "" }) :=
  decoders_map_items_and_copy_pagination (tagged "Role") (tagged "User")
    adminRolesResponse usersResponse ["admin-a", "admin-b"] ["alice", "bob"] rfl rfl

/-- C2: when the `roles` property is omitted, `_responseToPaginatedList`
succeeds with an empty list and a pagination whose `count`, `total`, `page`
and `query` are those of the response. -/
theorem responseToPaginatedList_roles_omitted {J R : Type} (fromJSON : J → R)
    (response : PaginatedResponse J) (h : response.roles = .undefined) :
    ∃ p, _responseToPaginatedList fromJSON response = .ok p
      ∧ p.list = []
      ∧ p.pagination.count = response.count
      ∧ p.pagination.total = response.total
      ∧ p.pagination.page = response.page
      ∧ p.pagination.query = response.query := by
  refine ⟨_, responseToPaginatedList_of_array fromJSON response []
    (by simp [h, defaultEmpty]), ?_⟩
  simp

/-- C2 at the response `rolesOmittedResponse`. -/
theorem responseToPaginatedList_roles_omitted_witness :
    ∃ p, _responseToPaginatedList (tagged "Role") rolesOmittedResponse = .ok p
      ∧ p.list = []
      ∧ p.pagination.count = 0
      ∧ p.pagination.total = 0
      ∧ p.pagination.page = 1
      ∧ p.pagination.query = "none" :=
  responseToPaginatedList_roles_omitted (tagged "Role") rolesOmittedResponse rfl

end AuthzRoles

namespace AuthzRoles

theorem responseToPaginatedUserList_of_not_array {J U : Type} (fromJSON : J → U)
    (response : PaginatedUserResponse J)
    (h : response.users = .undefined ∨ response.users = .null) :
    _responseToPaginatedUserList fromJSON response = .error .typeError := by
  rcases h with h | h <;> simp [_responseToPaginatedUserList, h, mapItems]

/-- C3: the decoders differ when the item array is absent:
`_responseToPaginatedUserList` throws (it yields no page) on every response
without `users`, `_responseToPaginatedList` succeeds on every response
without `roles`, and `_responseToPaginatedUserList` succeeds on every
response whose `users` is an array. -/
theorem decoders_differ_on_absent_items {J K R U : Type}
    (roleFromJSON : J → R) (userFromJSON : K → U) :
    (∀ response : PaginatedUserResponse K, response.users = .undefined →
        _responseToPaginatedUserList userFromJSON response = .error .typeError
        ∧ ∀ q, _responseToPaginatedUserList userFromJSON response ≠ .ok q)
    ∧ (∀ response : PaginatedResponse J, response.roles = .undefined →
        ∃ p, _responseToPaginatedList roleFromJSON response = .ok p ∧ p.list = [])
    ∧ (∀ (response : PaginatedUserResponse K) (users : List K),
        response.users = .array users →
        ∃ q, _responseToPaginatedUserList userFromJSON response = .ok q) := by
  refine ⟨?_, ?_, ?_⟩
  · intro response h
    have herr := responseToPaginatedUserList_of_not_array userFromJSON response (Or.inl h)
    refine ⟨herr, ?_⟩
    intro q hq
    rw [herr] at hq
    cases hq
  · intro response h
    exact ⟨_, responseToPaginatedList_of_array roleFromJSON response []
      (by simp [h, defaultEmpty]), rfl⟩
  · intro response users h
    exact ⟨_, responseToPaginatedUserList_of_array userFromJSON response users h⟩

/-- C3 at the responses `usersOmittedResponse`, `rolesOmittedResponse` and
`usersResponse`. -/
theorem decoders_differ_on_absent_items_witness :
    _responseToPaginatedUserList (tagged "User") usersOmittedResponse = .error .typeError
    ∧ (∃ p, _responseToPaginatedList (tagged "Role") rolesOmittedResponse = .ok p
        ∧ p.list = [])
    ∧ (∃ q, _responseToPaginatedUserList (tagged "User") usersResponse = .ok q) :=
  have h := decoders_differ_on_absent_items (J := String) (K := String)
    (tagged "Role") (tagged "User")
  ⟨(h.1 usersOmittedResponse rfl).1, h.2.1 rolesOmittedResponse rfl,
    h.2.2 usersResponse ["alice", "bob"] rfl⟩

/-- A `null` item property is not defaulted: both decoders throw on it. -/
theorem decoders_throw_on_null {J K R U : Type} (roleFromJSON : J → R) (userFromJSON : K → U)
    (roleResponse : PaginatedResponse J) (userResponse : PaginatedUserResponse K)
    (hroles : roleResponse.roles = .null) (husers : userResponse.users = .null) :
    _responseToPaginatedList roleFromJSON roleResponse = .error .typeError
    ∧ _responseToPaginatedUserList userFromJSON userResponse = .error .typeError := by
  constructor
  · simp [_responseToPaginatedList, hroles, defaultEmpty, mapItems]
  · exact responseToPaginatedUserList_of_not_array userFromJSON userResponse (Or.inr husers)

/-- C4, as stated, fails: the decoder turns the response `oversizedResponse`
(`per_page = 1`, `count = 0`, two roles) into a page of two roles whose
`perPage` is 1 and whose `count` is 0, so not every decoded page satisfies the
page invariant; and `loadRolesPaginated(2, 10, "admin")`, answered with
`elevenRolesResponse`, resolves to a page with `perPage = 10` and eleven roles. -/
theorem decoded_page_invariant_counterexample :
    (∃ p, _responseToPaginatedList (tagged "Role") oversizedResponse = .ok p
        ∧ p.list.length = 2 ∧ p.pagination.perPage = 1 ∧ p.pagination.count = 0
        ∧ ¬ PageInvariant p)
    ∧ (∃ p, (AuthzRolesStore.loadRolesPaginated (sampleCollaborators (.fulfilled "page-json"))
              2 10 "admin" emptyWorld).2.outcome = .fulfilled (.rolePage p)
        ∧ p.pagination.page = 2 ∧ p.pagination.perPage = 10 ∧ p.list.length = 11)
    ∧ ¬ (∀ (response : PaginatedResponse String) (p : PaginatedListType String),
          _responseToPaginatedList (tagged "Role") response = .ok p → PageInvariant p) := by
  have hdec := responseToPaginatedList_of_array (tagged "Role") oversizedResponse
    ["reader", "admin"] rfl
  have hbad : ¬ PageInvariant
      ({ list := ["reader", "admin"].map (tagged "Role")
         pagination := { count := oversizedResponse.count, total := oversizedResponse.total,
                         page := oversizedResponse.page,
                         perPage := oversizedResponse.per_page,
                         query := oversizedResponse.query } } : PaginatedListType String) := by
    simp [PageInvariant, oversizedResponse]
  refine ⟨⟨_, hdec, by simp, rfl, rfl, hbad⟩, ⟨_, rfl, rfl, rfl, rfl⟩, ?_⟩
  intro hall
  exact hbad (hall _ _ hdec)

/-- How `loadRolesPaginated` settles when its request is fulfilled with the
body `j`: with the page the decoder makes of the body, or rejected with what
the decoder throws. -/
theorem loadRolesPaginated_outcome {J R U : Type} (env : Collaborators J R U)
    (page perPage : Int) (query : String) (w : World J R U) (j : J)
    (h : env.respond w.requests
        { method := .GET,
          url := env.qualifyUrl (env.PaginationURL env.routes.list page perPage query),
          body := none } = .fulfilled j) :
    (AuthzRolesStore.loadRolesPaginated env page perPage query w).2.outcome
      = match _responseToPaginatedList env.roleFromJSON (env.rolesEnvelope j) with
        | .ok p => .fulfilled (.rolePage p)
        | .error e => .rejected (.thrown e) := by
  cases hd : _responseToPaginatedList env.roleFromJSON (env.rolesEnvelope j) <;>
    simp [AuthzRolesStore.loadRolesPaginated, fetch, Promise.then_, registerPromise, h, hd,
      Except.map]

/-- How `loadRolesForUser` settles when its request is fulfilled with the
body `j`. -/
theorem loadRolesForUser_outcome {J R U : Type} (env : Collaborators J R U)
    (username : String) (page perPage : Int) (query : String) (w : World J R U) (j : J)
    (h : env.respond w.requests
        { method := .GET,
          url := env.qualifyUrl
            (env.PaginationURL (env.routes.loadRolesForUser username) page perPage query),
          body := none } = .fulfilled j) :
    (AuthzRolesStore.loadRolesForUser env username page perPage query w).2.outcome
      = match _responseToPaginatedList env.roleFromJSON (env.rolesEnvelope j) with
        | .ok p => .fulfilled (.rolePage p)
        | .error e => .rejected (.thrown e) := by
  cases hd : _responseToPaginatedList env.roleFromJSON (env.rolesEnvelope j) <;>
    simp [AuthzRolesStore.loadRolesForUser, fetch, Promise.then_, registerPromise, h, hd,
      Except.map]

/-- How `loadUsersForRole` settles when its request is fulfilled with the
body `j`. -/
theorem loadUsersForRole_outcome {J R U : Type} (env : Collaborators J R U)
    (roleId roleName : String) (page perPage : Int) (query : String) (w : World J R U) (j : J)
    (h : env.respond w.requests
        { method := .GET,
          url := env.qualifyUrl
            (env.PaginationURL (env.routes.loadUsersForRole roleId) page perPage query),
          body := none } = .fulfilled j) :
    (AuthzRolesStore.loadUsersForRole env roleId roleName page perPage query w).2.outcome
      = match _responseToPaginatedUserList env.userFromJSON (env.usersEnvelope j) with
        | .ok p => .fulfilled (.userPage p)
        | .error e => .rejected (.thrown e) := by
  cases hd : _responseToPaginatedUserList env.userFromJSON (env.usersEnvelope j) <;>
    simp [AuthzRolesStore.loadUsersForRole, fetch, Promise.then_, registerPromise, h, hd,
      Except.map]

/-- C4, amended: the decoders copy `per_page` and `count` and keep every
item, so the page they return satisfies the page invariant exactly when the
response does: the number of items (none when `roles` is omitted) is at most
`per_page` and equals `count`. The same holds for the page
`loadRolesPaginated`, `loadRolesForUser` and `loadUsersForRole` resolve to
when their request is fulfilled: it is the decoded page of the response body,
with every item of the body and no other, and it satisfies the page invariant
exactly when the body does. -/
theorem decoded_page_invariant_iff {J K R U : Type}
    (roleFromJSON : J → R) (userFromJSON : K → U)
    (roleResponse : PaginatedResponse J) (userResponse : PaginatedUserResponse K)
    (roles : List J) (users : List K)
    (env : Collaborators J R U) (w : World J R U)
    (roleId roleName username : String) (page perPage : Int) (query : String)
    (hroles : defaultEmpty roleResponse.roles = .array roles)
    (husers : userResponse.users = .array users) :
    (∃ p, _responseToPaginatedList roleFromJSON roleResponse = .ok p
        ∧ p.list = roles.map roleFromJSON
        ∧ (PageInvariant p ↔
            (roles.length : Int) ≤ roleResponse.per_page
              ∧ roleResponse.count = roles.length))
    ∧ (∃ q, _responseToPaginatedUserList userFromJSON userResponse = .ok q
        ∧ q.list = users.map userFromJSON
        ∧ (PageInvariant q ↔
            (users.length : Int) ≤ userResponse.per_page
              ∧ userResponse.count = users.length))
    ∧ (∀ (j : J) (items : List J),
        env.respond w.requests
          { method := .GET,
            url := env.qualifyUrl (env.PaginationURL env.routes.list page perPage query),
            body := none } = .fulfilled j →
        defaultEmpty (env.rolesEnvelope j).roles = .array items →
        ∃ p, (AuthzRolesStore.loadRolesPaginated env page perPage query w).2.outcome
              = .fulfilled (.rolePage p)
          ∧ p.list = items.map env.roleFromJSON
          ∧ p.pagination.perPage = (env.rolesEnvelope j).per_page
          ∧ p.pagination.count = (env.rolesEnvelope j).count
          ∧ (PageInvariant p ↔
              (items.length : Int) ≤ (env.rolesEnvelope j).per_page
                ∧ (env.rolesEnvelope j).count = items.length))
    ∧ (∀ (j : J) (items : List J),
        env.respond w.requests
          { method := .GET,
            url := env.qualifyUrl
              (env.PaginationURL (env.routes.loadRolesForUser username) page perPage query),
            body := none } = .fulfilled j →
        defaultEmpty (env.rolesEnvelope j).roles = .array items →
        ∃ p, (AuthzRolesStore.loadRolesForUser env username page perPage query w).2.outcome
              = .fulfilled (.rolePage p)
          ∧ p.list = items.map env.roleFromJSON
          ∧ p.pagination.perPage = (env.rolesEnvelope j).per_page
          ∧ p.pagination.count = (env.rolesEnvelope j).count
          ∧ (PageInvariant p ↔
              (items.length : Int) ≤ (env.rolesEnvelope j).per_page
                ∧ (env.rolesEnvelope j).count = items.length))
    ∧ (∀ (j : J) (items : List J),
        env.respond w.requests
          { method := .GET,
            url := env.qualifyUrl
              (env.PaginationURL (env.routes.loadUsersForRole roleId) page perPage query),
            body := none } = .fulfilled j →
        (env.usersEnvelope j).users = .array items →
        ∃ q, (AuthzRolesStore.loadUsersForRole env roleId roleName page perPage query
                w).2.outcome = .fulfilled (.userPage q)
          ∧ q.list = items.map env.userFromJSON
          ∧ q.pagination.perPage = (env.usersEnvelope j).per_page
          ∧ q.pagination.count = (env.usersEnvelope j).count
          ∧ (PageInvariant q ↔
              (items.length : Int) ≤ (env.usersEnvelope j).per_page
                ∧ (env.usersEnvelope j).count = items.length)) := by
  refine ⟨⟨_, responseToPaginatedList_of_array roleFromJSON roleResponse roles hroles, rfl, ?_⟩,
    ⟨_, responseToPaginatedUserList_of_array userFromJSON userResponse users husers, rfl, ?_⟩,
    ?_, ?_, ?_⟩
  · simp [PageInvariant]
  · simp [PageInvariant]
  · intro j items hj hitems
    refine ⟨{ list := items.map env.roleFromJSON
              pagination := { count := (env.rolesEnvelope j).count, total := (env.rolesEnvelope j).total,
                              page := (env.rolesEnvelope j).page, perPage := (env.rolesEnvelope j).per_page,
                              query := (env.rolesEnvelope j).query } }, ?_, rfl, rfl, rfl, ?_⟩
    · rw [loadRolesPaginated_outcome env page perPage query w j hj,
        responseToPaginatedList_of_array env.roleFromJSON (env.rolesEnvelope j) items hitems]
    · simp [PageInvariant]
  · intro j items hj hitems
    refine ⟨{ list := items.map env.roleFromJSON
              pagination := { count := (env.rolesEnvelope j).count, total := (env.rolesEnvelope j).total,
                              page := (env.rolesEnvelope j).page, perPage := (env.rolesEnvelope j).per_page,
                              query := (env.rolesEnvelope j).query } }, ?_, rfl, rfl, rfl, ?_⟩
    · rw [loadRolesForUser_outcome env username page perPage query w j hj,
        responseToPaginatedList_of_array env.roleFromJSON (env.rolesEnvelope j) items hitems]
    · simp [PageInvariant]
  · intro j items hj hitems
    refine ⟨{ list := items.map env.userFromJSON
              pagination := { count := (env.usersEnvelope j).count, total := (env.usersEnvelope j).total,
                              page := (env.usersEnvelope j).page, perPage := (env.usersEnvelope j).per_page,
                              query := (env.usersEnvelope j).query } }, ?_, rfl, rfl, rfl, ?_⟩
    · rw [loadUsersForRole_outcome env roleId roleName page perPage query w j hj,
        responseToPaginatedUserList_of_array env.userFromJSON (env.usersEnvelope j) items
          hitems]
    · simp [PageInvariant]

/-- C4, amended, at the responses `adminRolesResponse` and `usersResponse`,
which respect their own `per_page` and `count`, and at the three paginated
operations run on the empty state with every request answered by such a
response: each resolves to a page that satisfies the page invariant. -/
theorem decoded_page_invariant_iff_witness :
    (∃ p, _responseToPaginatedList (tagged "Role") adminRolesResponse = .ok p
        ∧ p.list = [tagged "Role" "admin-a", tagged "Role" "admin-b"]
        ∧ PageInvariant p)
    ∧ (∃ q, _responseToPaginatedUserList (tagged "User") usersResponse = .ok q
        ∧ q.list = [tagged "User" "alice", tagged "User" "bob"]
        ∧ PageInvariant q)
    ∧ (∃ p, (AuthzRolesStore.loadRolesPaginated (conformingCollaborators "page-json")
              2 10 "admin" emptyWorld).2.outcome = .fulfilled (.rolePage p)
        ∧ p.list = [tagged "Role" "admin-a", tagged "Role" "admin-b"]
        ∧ p.pagination.perPage = 10 ∧ p.pagination.count = 2
        ∧ PageInvariant p)
    ∧ (∃ p, (AuthzRolesStore.loadRolesForUser (conformingCollaborators "page-json")
              "alice" 2 10 "admin" emptyWorld).2.outcome = .fulfilled (.rolePage p)
        ∧ p.list = [tagged "Role" "admin-a", tagged "Role" "admin-b"]
        ∧ p.pagination.perPage = 10 ∧ p.pagination.count = 2
        ∧ PageInvariant p)
    ∧ (∃ q, (AuthzRolesStore.loadUsersForRole (conformingCollaborators "page-json")
              "r1" "Reader" 1 10 "" emptyWorld).2.outcome = .fulfilled (.userPage q)
        ∧ q.list = [tagged "User" "alice", tagged "User" "bob"]
        ∧ q.pagination.perPage = 10 ∧ q.pagination.count = 2
        ∧ PageInvariant q) := by
  have hpaginated := decoded_page_invariant_iff (tagged "Role") (tagged "User")
    adminRolesResponse usersResponse ["admin-a", "admin-b"] ["alice", "bob"]
    (conformingCollaborators "page-json") emptyWorld "r1" "Reader" "alice" 2 10 "admin"
    rfl rfl
  have husers := decoded_page_invariant_iff (tagged "Role") (tagged "User")
    adminRolesResponse usersResponse ["admin-a", "admin-b"] ["alice", "bob"]
    (conformingCollaborators "page-json") emptyWorld "r1" "Reader" "alice" 1 10 ""
    rfl rfl
  have hvalid : ((["admin-a", "admin-b"] : List String).length : Int) ≤ 10
      ∧ (2 : Int) = (["admin-a", "admin-b"] : List String).length := by
    constructor <;> simp
  obtain ⟨⟨p1, hp1, hl1, hi1⟩, ⟨q1, hq1, hm1, hk1⟩, hlist, hforUser, _⟩ := hpaginated
  obtain ⟨p2, hp2, hl2, hpp2, hc2, hi2⟩ := hlist "page-json" ["admin-a", "admin-b"] rfl rfl
  obtain ⟨p3, hp3, hl3, hpp3, hc3, hi3⟩ := hforUser "page-json" ["admin-a", "admin-b"] rfl rfl
  obtain ⟨q4, hq4, hl4, hpp4, hc4, hi4⟩ := husers.2.2.2.2 "page-json" ["alice", "bob"] rfl rfl
  exact ⟨⟨p1, hp1, hl1, hi1.2 hvalid⟩, ⟨q1, hq1, hm1, hk1.2 hvalid⟩,
    ⟨p2, hp2, hl2, hpp2, hc2, hi2.2 hvalid⟩, ⟨p3, hp3, hl3, hpp3, hc3, hi3.2 hvalid⟩,
    ⟨q4, hq4, hl4, hpp4, hc4, hi4.2 hvalid⟩⟩

end AuthzRoles

/-! ## Properties of the store operations -/

namespace AuthzRoles

/-- A promise of `fetch` is fulfilled with a response body or rejected. -/
theorem fetch_settles_with_body {J R U : Type} (env : Collaborators J R U) (method : Method)
    (url : String) (body : Option (List String)) (w : World J R U) :
    (∃ j, (fetch env method url body w).2.outcome = .fulfilled (.json j))
    ∨ (∃ reason, (fetch env method url body w).2.outcome = .rejected reason) := by
  cases h : env.respond w.requests { method := method, url := url, body := body } with
  | fulfilled j => exact Or.inl ⟨j, by simp [fetch, h]⟩
  | rejected reason => exact Or.inr ⟨reason, by simp [fetch, h]⟩

/-- On every input `addMembers` issues one PUT to the qualified addMembers
route whose body lists the usernames in iteration order, each once, and the
promise it returns never resolves to a `Role`: it settles as the request
does. -/
theorem addMembers_request_and_outcome {J R U : Type} (env : Collaborators J R U)
    (roleId : String) (usernames : ImmutableSet String) (w : World J R U) :
    (AuthzRolesStore.addMembers env roleId usernames w).1.requests
      = w.requests ++ [{ method := .PUT, url := env.qualifyUrl (env.routes.addMembers roleId),
                         body := some usernames.toArray }]
    ∧ usernames.toArray.Nodup
    ∧ (∀ r, (AuthzRolesStore.addMembers env roleId usernames w).2.outcome
        ≠ .fulfilled (.role r))
    ∧ (∀ j, env.respond w.requests { method := .PUT,
                                      url := env.qualifyUrl (env.routes.addMembers roleId),
                                      body := some usernames.toArray } = .fulfilled j →
        (AuthzRolesStore.addMembers env roleId usernames w).2.outcome
          = .fulfilled (.json j)) := by
  refine ⟨rfl, usernames.nodup, ?_, ?_⟩
  · intro r
    rcases fetch_settles_with_body env .PUT (env.qualifyUrl (env.routes.addMembers roleId))
      (some usernames.toArray) w with ⟨j, hj⟩ | ⟨reason, hr⟩
    · simp [AuthzRolesStore.addMembers, hj]
    · simp [AuthzRolesStore.addMembers, hr]
  · intro j hj
    simp [AuthzRolesStore.addMembers, fetch, hj]

/-- C9: `addMembers("r1", {"alice","bob"})` issues one PUT to the addMembers
route with body `["alice","bob"]`, but the promise it returns is the promise
of `fetch` itself: it resolves to the response body, not to the role built
from it by `Role.fromJSON`, which is what `load` resolves to. -/
theorem addMembers_resolves_to_response_body :
    (AuthzRolesStore.addMembers (sampleCollaborators (.fulfilled "role-json")) "r1"
        aliceAndBob emptyWorld).1.requests
      = [{ method := .PUT, url := "http://graylog/api/roles/r1/members",
           body := some ["alice", "bob"] }]
    ∧ (AuthzRolesStore.addMembers (sampleCollaborators (.fulfilled "role-json")) "r1"
        aliceAndBob emptyWorld).2.outcome
      = .fulfilled (.json "role-json")
    ∧ (AuthzRolesStore.addMembers (sampleCollaborators (.fulfilled "role-json")) "r1"
        aliceAndBob emptyWorld).2.outcome
      ≠ .fulfilled (.role (tagged "Role" "role-json"))
    ∧ (AuthzRolesStore.load (sampleCollaborators (.fulfilled "role-json")) "r1"
        emptyWorld).2.outcome
      = .fulfilled (.role (tagged "Role" "role-json")) := by
  refine ⟨rfl, rfl, ?_, rfl⟩
  intro h
  have h2 : (Outcome.fulfilled (Value.json "role-json") : Outcome (Value String String String))
      = .fulfilled (.role (tagged "Role" "role-json")) := h
  cases h2

/-- C10: every store operation issues exactly one request, hands exactly one
promise to the action of its own name and to no other, and returns that same
promise; when the request is rejected, the promise is rejected with the
same reason. -/
theorem store_operation_one_request_one_promise {J R U : Type}
    (env : Collaborators J R U) (call : Call) (w : World J R U) :
    ∃ request : Request,
      (call.run env w).1.requests = w.requests ++ [request]
      ∧ (call.run env w).1.registered = w.registered ++ [(call.action, (call.run env w).2)]
      ∧ (∀ reason, env.respond w.requests request = .rejected reason →
          (call.run env w).2.outcome = .rejected reason) := by
  cases call <;> (refine ⟨_, rfl, rfl, ?_⟩; intro reason h) <;>
    simp [Call.run, AuthzRolesStore.load, AuthzRolesStore.delete, AuthzRolesStore.addMembers,
      AuthzRolesStore.removeMember, AuthzRolesStore.loadUsersForRole,
      AuthzRolesStore.loadRolesForUser, AuthzRolesStore.loadRolesPaginated,
      fetch, Promise.then_, registerPromise, h]

end AuthzRoles

/-! ## Properties of the view action menu -/

namespace ViewActions

theorem isAllowedToEdit_eq_true_iff (env : Collaborators) (view : View)
    (currentUser : Option UserJSON) :
    _isAllowedToEdit env view currentUser = true ↔
      (env.isPermitted (permissionsOf currentUser) [env.viewEdit view.id] = true
        ∨ (view.type = ViewType.Dashboard
            ∧ env.isPermitted (permissionsOf currentUser)
                ["dashboards:edit:" ++ view.id] = true)) := by
  simp [_isAllowedToEdit, legacyDashboardEdit]

theorem hasUndeclaredParameters_eq_true_iff (metadata : SearchMetadata) :
    _hasUndeclaredParameters metadata = true ↔ metadata.undeclared.toArray ≠ [] := by
  simp [_hasUndeclaredParameters, AuthzRoles.ImmutableSet.size, List.length_pos]

/-- C5: `_isAllowedToEdit(view, user)` holds exactly when the permissions of
the user (none for an absent user) permit `Permissions.View.Edit(view.id)`,
or the view is a dashboard and they permit `dashboards:edit:<view.id>`; so
it holds whenever the view-specific permission is held, whatever the type,
and for a dashboard whenever the legacy string is held. -/
theorem isAllowedToEdit_spec (env : Collaborators) (view : View)
    (currentUser : Option UserJSON) :
    (_isAllowedToEdit env view currentUser = true ↔
      (env.isPermitted (currentUser.map UserJSON.permissions) [env.viewEdit view.id] = true
        ∨ (view.type = ViewType.Dashboard
            ∧ env.isPermitted (currentUser.map UserJSON.permissions)
                ["dashboards:edit:" ++ view.id] = true)))
    ∧ (env.isPermitted (currentUser.map UserJSON.permissions) [env.viewEdit view.id] = true →
        _isAllowedToEdit env view currentUser = true)
    ∧ (view.type = ViewType.Dashboard →
        env.isPermitted (currentUser.map UserJSON.permissions)
          ["dashboards:edit:" ++ view.id] = true →
        _isAllowedToEdit env view currentUser = true) := by
  have h := isAllowedToEdit_eq_true_iff env view currentUser
  unfold permissionsOf at h
  exact ⟨h, fun h1 => h.2 (Or.inl h1), fun ht h2 => h.2 (Or.inr ⟨ht, h2⟩)⟩

/-- C6: the Save button is disabled exactly by
`isNewView || hasUndeclaredParameters || !allowedToEdit`; it is enabled if and
only if the view is not new, no parameter is undeclared and the user is
allowed to edit. -/
theorem save_enabled_iff (env : Collaborators) (view : View) (isNewView : Bool)
    (metadata : SearchMetadata) (currentUser : Option UserJSON) :
    (ViewActionsMenu env view isNewView metadata currentUser).saveDisabled
        = (isNewView || _hasUndeclaredParameters metadata
            || !_isAllowedToEdit env view currentUser)
    ∧ ((ViewActionsMenu env view isNewView metadata currentUser).saveDisabled = false ↔
        (isNewView = false ∧ metadata.undeclared.toArray = []
          ∧ _isAllowedToEdit env view currentUser = true)) := by
  refine ⟨rfl, ?_⟩
  have hu := hasUndeclaredParameters_eq_true_iff metadata
  cases hb : _hasUndeclaredParameters metadata <;> simp [ViewActionsMenu, hb] <;>
    simp [hb] at hu <;> simp [hu]

end ViewActions

namespace ViewActions

/-- C5 at `sampleDashboard` and the user `legacyEditor`, who holds the legacy
string only: the view may be edited. -/
theorem isAllowedToEdit_spec_witness :
    _isAllowedToEdit sampleCollaborators sampleDashboard (some legacyEditor) = true :=
  (isAllowedToEdit_spec sampleCollaborators sampleDashboard (some legacyEditor)).2.2 rfl
    (by decide)

/-- C6 at `sampleDashboard`, saved before, with every parameter declared and
the user `legacyEditor`: Save is enabled. -/
theorem save_enabled_iff_witness :
    (ViewActionsMenu sampleCollaborators sampleDashboard false allDeclared
      (some legacyEditor)).saveDisabled = false :=
  (save_enabled_iff sampleCollaborators sampleDashboard false allDeclared
    (some legacyEditor)).2.2 ⟨rfl, rfl, by decide⟩

/-- C7: `_hasUndeclaredParameters(metadata)` holds exactly when the
undeclared set has an element, and Save as is disabled exactly when it
holds: with an undeclared parameter Save and Save as are both disabled, and
without one Save as is enabled whatever `isNewView` and the user are. -/
theorem save_as_disabled_iff_undeclared (env : Collaborators) (view : View) (isNewView : Bool)
    (metadata : SearchMetadata) (currentUser : Option UserJSON) :
    (_hasUndeclaredParameters metadata = true ↔ ∃ name, name ∈ metadata.undeclared.toArray)
    ∧ ((ViewActionsMenu env view isNewView metadata currentUser).saveAsDisabled = true ↔
        _hasUndeclaredParameters metadata = true)
    ∧ ((∃ name, name ∈ metadata.undeclared.toArray) →
        (ViewActionsMenu env view isNewView metadata currentUser).saveDisabled = true
        ∧ (ViewActionsMenu env view isNewView metadata currentUser).saveAsDisabled = true)
    ∧ ((¬ ∃ name, name ∈ metadata.undeclared.toArray) →
        ∀ (isNew : Bool) (user : Option UserJSON),
          (ViewActionsMenu env view isNew metadata user).saveAsDisabled = false) := by
  have hu : _hasUndeclaredParameters metadata = true ↔
      ∃ name, name ∈ metadata.undeclared.toArray := by
    rw [hasUndeclaredParameters_eq_true_iff]
    constructor
    · intro hne
      exact List.exists_mem_of_ne_nil _ hne
    · rintro ⟨name, hname⟩
      exact List.ne_nil_of_mem hname
  refine ⟨hu, Iff.rfl, ?_, ?_⟩
  · intro h
    have ht := hu.2 h
    simp [ViewActionsMenu, ht]
  · intro h isNew user
    have hf : _hasUndeclaredParameters metadata = false := by
      cases hb : _hasUndeclaredParameters metadata
      · rfl
      · exact absurd (hu.1 hb) h
    simp [ViewActionsMenu, hf]

/-- C7 at `oneUndeclared` (Save and Save as disabled for an editor of a saved
view) and at `allDeclared` (Save as enabled for a new view and no user). -/
theorem save_as_disabled_iff_undeclared_witness :
    ((ViewActionsMenu sampleCollaborators sampleDashboard false oneUndeclared
        (some legacyEditor)).saveDisabled = true
      ∧ (ViewActionsMenu sampleCollaborators sampleDashboard false oneUndeclared
        (some legacyEditor)).saveAsDisabled = true)
    ∧ (ViewActionsMenu sampleCollaborators sampleDashboard true allDeclared
        none).saveAsDisabled = false :=
  ⟨(save_as_disabled_iff_undeclared sampleCollaborators sampleDashboard false oneUndeclared
      (some legacyEditor)).2.2.1 ⟨"source", by simp [oneUndeclared]⟩,
    (save_as_disabled_iff_undeclared sampleCollaborators sampleDashboard false allDeclared
      (some legacyEditor)).2.2.2 (by simp [allDeclared]) true none⟩

/-- C8: Edit metadata is enabled exactly when `!isNewView && allowedToEdit`,
Share exactly when `!isNewView && allowedToEdit && !disabled`; neither
changes with the metadata, and Share enabled implies Edit metadata enabled. -/
theorem edit_and_share_enabled_iff (env : Collaborators) (view : View) (isNewView : Bool)
    (metadata : SearchMetadata) (currentUser : Option UserJSON) (disabled : Bool) :
    ((ViewActionsMenu env view isNewView metadata currentUser).editMetadataDisabled = false ↔
        (!isNewView && _isAllowedToEdit env view currentUser) = true)
    ∧ ((ViewActionsMenu env view isNewView metadata currentUser).shareDisabled disabled
          = false ↔
        (!isNewView && _isAllowedToEdit env view currentUser && !disabled) = true)
    ∧ (∀ other : SearchMetadata,
        (ViewActionsMenu env view isNewView other currentUser).editMetadataDisabled
          = (ViewActionsMenu env view isNewView metadata currentUser).editMetadataDisabled
        ∧ (ViewActionsMenu env view isNewView other currentUser).shareDisabled disabled
          = (ViewActionsMenu env view isNewView metadata currentUser).shareDisabled disabled)
    ∧ ((ViewActionsMenu env view isNewView metadata currentUser).shareDisabled disabled
          = false →
        (ViewActionsMenu env view isNewView metadata currentUser).editMetadataDisabled
          = false) := by
  refine ⟨?_, ?_, fun _ => ⟨rfl, rfl⟩, ?_⟩ <;>
    cases isNewView <;> cases disabled <;>
    cases ha : _isAllowedToEdit env view currentUser <;> simp [ViewActionsMenu, ha]

/-- C8 at `sampleDashboard`, saved before, the user `legacyEditor` and an
ownership check that does not disable sharing: Share and Edit metadata are
enabled. -/
theorem edit_and_share_enabled_iff_witness :
    (ViewActionsMenu sampleCollaborators sampleDashboard false oneUndeclared
        (some legacyEditor)).shareDisabled false = false
    ∧ (ViewActionsMenu sampleCollaborators sampleDashboard false oneUndeclared
        (some legacyEditor)).editMetadataDisabled = false :=
  have h := edit_and_share_enabled_iff sampleCollaborators sampleDashboard false oneUndeclared
    (some legacyEditor) false
  ⟨h.2.1.2 (by decide), h.1.2 (by decide)⟩

end ViewActions

namespace AuthzRoles

/-- C10 at `delete("r1")` on the empty state with a transport that reports a
missing role: one request, one promise handed to the `delete` action and
returned, rejected with the failure of the request. -/
theorem store_operation_one_request_one_promise_witness :
    ∃ request : Request,
      ((Call.delete "r1").run (sampleCollaborators (.rejected (.http 404))) emptyWorld).1.requests
        = emptyWorld.requests ++ [request]
      ∧ ((Call.delete "r1").run (sampleCollaborators (.rejected (.http 404)))
          emptyWorld).1.registered
        = emptyWorld.registered ++ [((Call.delete "r1").action,
            ((Call.delete "r1").run (sampleCollaborators (.rejected (.http 404)))
              emptyWorld).2)]
      ∧ (∀ reason,
          (sampleCollaborators (.rejected (.http 404))).respond emptyWorld.requests request
            = .rejected reason →
          ((Call.delete "r1").run (sampleCollaborators (.rejected (.http 404)))
            emptyWorld).2.outcome = .rejected reason) :=
  store_operation_one_request_one_promise (sampleCollaborators (.rejected (.http 404)))
    (Call.delete "r1") emptyWorld

end AuthzRoles
